import Mathlib

/-!
Shallow embedding of the reservation availability and conflict-resolution
engine of the razor-spark-book barbershop booking application, together
with theorems settling the specification claims about it.

Conventions of the embedding:
* "HH:MM" wall-clock strings are represented as minutes since midnight
  (a `Nat` in `0..1439`).  For zero-padded "HH:MM" strings the
  lexicographic string order used by the MongoDB query coincides with the
  numeric order on minutes, so the comparisons below are faithful.
* Calendar dates (day granularity) are day indices (`Nat`), and absolute
  instants are minutes since the epoch (`day * 1440 + minutesOfDay`).
* MongoDB ObjectIds and user ids are plain strings.
* Fallible operations return `Except` with one error constructor per
  `throw` site of the source.
-/

namespace RazorSpark

/-- Reservation status, from the `status` enum of the Mongoose
`Reservation` schema: `pending | confirmed | cancelled | completed`. -/
inductive Status where
  | pending
  | confirmed
  | cancelled
  | completed
deriving DecidableEq, Repr

/-- One entry of the Service Catalog (`Service` schema): id, name,
duration in minutes, price. -/
structure CatalogService where
  id : String
  name : String
  duration : Nat
  price : Nat
deriving DecidableEq, Repr

/-- Denormalized per-service snapshot stored inside a reservation
(`services` array of the `Reservation` schema). -/
structure ServiceSnapshot where
  serviceId : String
  serviceName : String
  duration : Nat
  price : Nat
deriving DecidableEq, Repr

/-- The persisted `Reservation` document (reservation.schema). -/
structure Reservation where
  id : String
  clientId : String
  clientName : String
  clientPhone : Option String
  serviceIds : List String
  services : List ServiceSnapshot
  barberName : String
  date : Nat
  startTime : Nat
  endTime : Nat
  status : Status
  notes : Option String
  totalDuration : Nat
  totalPrice : Nat
deriving DecidableEq, Repr

/-- The `CreateReservationDto` (dto/reservation.dto).  Note that the DTO
declares a required `endTime` field even though the service never reads
it: the stored end time is always recomputed from the service durations. -/
structure CreateReservationDto where
  clientName : String
  clientPhone : Option String
  serviceId : Option String
  serviceIds : Option (List String)
  barberName : String
  date : Nat
  startTime : Nat
  endTime : Nat
  notes : Option String
deriving DecidableEq, Repr

/-- One constructor per `BadRequestException` thrown by
`ReservationService.createReservation`, in source order. -/
inductive CreateError where
  | invalidBarber
  | pastDate
  | noService
  | invalidService
  | degenerateTime
  | slotConflict
deriving DecidableEq, Repr

/-- The environment a `createReservation` call runs in: the current date
(start of day, for the past-date check), the Service Catalog collection,
the existing reservation collection, and the ObjectId Mongo assigns to a
newly persisted document. -/
structure Env where
  today : Nat
  catalog : List CatalogService
  store : List Reservation
  newId : String
deriving Repr

/-- The fixed barber set, `ReservationService.BARBERS`. -/
def BARBERS : List String := ["John", "Mike", "Alex"]

/-- Step 3 of `createReservation`: a single legacy `serviceId` wins,
otherwise a non-empty `serviceIds` list; `none` means the
"at least one service must be specified" rejection. -/
def resolveServiceIds (dto : CreateReservationDto) : Option (List String) :=
  match dto.serviceId with
  | some sid => some [sid]
  | none =>
    match dto.serviceIds with
    | some ids => if ids.length > 0 then some ids else none
    | none => none

/-- Step 4: `serviceModel.find (id in serviceIds)` — the catalog documents
whose `_id` occurs in the requested list, in collection order.  Mongo
returns each matching document once, so duplicates in `ids` do not
duplicate results. -/
def findServices (catalog : List CatalogService) (ids : List String) :
    List CatalogService :=
  catalog.filter (fun s => ids.contains s.id)

/-- Computes `totalDuration = services.reduce ((sum, s) => sum + s.duration, 0)`. -/
def totalDurationOf (services : List CatalogService) : Nat :=
  services.foldl (fun sum s => sum + s.duration) 0

/-- Computes `totalPrice = services.reduce ((sum, s) => sum + s.price, 0)`. -/
def totalPriceOf (services : List CatalogService) : Nat :=
  services.foldl (fun sum s => sum + s.price) 0

/-- The stored `endTime` string: `endDate.toTimeString().slice(0, 5)`,
i.e. the wall-clock time of `startDate + totalDuration minutes`.  When
the sum crosses midnight the stored string silently wraps, which is
exactly `(startTime + totalDuration) % 1440` in minutes. -/
def computeEndTime (startTime totalDuration : Nat) : Nat :=
  (startTime + totalDuration) % 1440

/-- Half-open interval overlap test of spec section 4.1:
`startA < endB && startB < endA`. -/
def intervalsOverlap (startA endA startB endB : Nat) : Bool :=
  decide (startA < endB) && decide (startB < endA)

/-- The Mongo overlap query of step 7: same `barberName`, same `date`,
`startTime < endTime_new`, `endTime > startTime_new`, `status` in
`[pending, confirmed]`. -/
def conflictsWith (barberName : String) (date startTime endTime : Nat)
    (r : Reservation) : Bool :=
  r.barberName == barberName && r.date == date &&
    decide (r.startTime < endTime) && decide (r.endTime > startTime) &&
    (r.status == Status.pending || r.status == Status.confirmed)

/-- The document `createReservation` hands to `reservationModel.save()`
once every check has passed: owner `userId`, snapshotted services,
derived totals, computed end time, `status: pending`. -/
def persistedReservation (env : Env) (dto : CreateReservationDto)
    (userId : String) (serviceIds : List String) : Reservation :=
  let services := findServices env.catalog serviceIds
  { id := env.newId
    clientId := userId
    clientName := dto.clientName
    clientPhone := dto.clientPhone
    serviceIds := serviceIds
    services := services.map (fun s =>
      { serviceId := s.id, serviceName := s.name,
        duration := s.duration, price := s.price })
    barberName := dto.barberName
    date := dto.date
    startTime := dto.startTime
    endTime := computeEndTime dto.startTime (totalDurationOf services)
    status := .pending
    notes := dto.notes
    totalDuration := totalDurationOf services
    totalPrice := totalPriceOf services }

/-- Embeds `ReservationService.createReservation(dto, userId)`, with one error
constructor per `throw` site, following the source check order. -/
def createReservation (env : Env) (dto : CreateReservationDto)
    (userId : String) : Except CreateError Reservation :=
  if !(BARBERS.contains dto.barberName) then
    .error .invalidBarber
  else if dto.date < env.today then
    .error .pastDate
  else
    match resolveServiceIds dto with
    | none => .error .noService
    | some serviceIds =>
      let services := findServices env.catalog serviceIds
      if services.length ≠ serviceIds.length then
        .error .invalidService
      else
        let totalDuration := totalDurationOf services
        let endTime := computeEndTime dto.startTime totalDuration
        -- `endDate <= startDate` on real `Date` values holds iff the
        -- added duration is zero (the `Date` itself never wraps).
        if totalDuration = 0 then
          .error .degenerateTime
        else if env.store.any
            (conflictsWith dto.barberName dto.date dto.startTime endTime) then
          .error .slotConflict
        else
          .ok (persistedReservation env dto userId serviceIds)

/-- The `UpdateReservationDto`: every field optional; `status` accepts any of
the four states with no transition restriction. -/
structure UpdateReservationDto where
  clientName : Option String := none
  clientPhone : Option String := none
  serviceIds : Option (List String) := none
  barberName : Option String := none
  date : Option Nat := none
  startTime : Option Nat := none
  endTime : Option Nat := none
  status : Option Status := none
  notes : Option String := none
deriving DecidableEq, Repr

/-- The only failure of `ReservationService.updateReservation`:
`NotFoundException` for an unknown id. -/
inductive UpdateError where
  | notFound
deriving DecidableEq, Repr

/-- The document produced by `findByIdAndUpdate(id, dto, new: true)`:
every field present in the DTO overwrites the stored one, the rest are
kept.  (`updatedAt` is refreshed by the same call; timestamps are not
part of this model.) -/
def applyUpdate (dto : UpdateReservationDto) (r : Reservation) : Reservation :=
  { r with
    clientName := dto.clientName.getD r.clientName
    clientPhone := match dto.clientPhone with
      | some p => some p
      | none => r.clientPhone
    serviceIds := dto.serviceIds.getD r.serviceIds
    barberName := dto.barberName.getD r.barberName
    date := dto.date.getD r.date
    startTime := dto.startTime.getD r.startTime
    endTime := dto.endTime.getD r.endTime
    status := dto.status.getD r.status
    notes := match dto.notes with
      | some n => some n
      | none => r.notes }

/-- Embeds `ReservationService.updateReservation(id, dto)`: look the document up
by id and apply the DTO unconditionally — the source performs no
status-transition validation of any kind. -/
def updateReservation (store : List Reservation) (id : String)
    (dto : UpdateReservationDto) : Except UpdateError Reservation :=
  match store.find? (fun r => r.id == id) with
  | none => .error .notFound
  | some r => .ok (applyUpdate dto r)

/-- The caller identity resolved from the JWT: `{id, role}` with
`role` either "admin" or a non-admin role. -/
structure Caller where
  id : String
  role : String
deriving DecidableEq, Repr

/-- The query-string filter of `GET /reservations`
(`filter: clientId?, barberName?, date?, status?` per the transport
contract). -/
structure ReservationQuery where
  clientId : Option String := none
  barberName : Option String := none
  date : Option Nat := none
  status : Option Status := none
deriving DecidableEq, Repr

/-- Mongo `find(query)` match semantics: every present field must equal
the corresponding field of the document. -/
def matchesQuery (q : ReservationQuery) (r : Reservation) : Bool :=
  (match q.clientId with | some c => r.clientId == c | none => true) &&
  (match q.barberName with | some b => r.barberName == b | none => true) &&
  (match q.date with | some d => r.date == d | none => true) &&
  (match q.status with | some s => r.status == s | none => true)

/-- Embeds `ReservationService.getReservations(clientId?, filters)`: the filters
are spread into the query and, when a `clientId` is given, it overwrites
any `clientId` the filters carried. -/
def getReservations (store : List Reservation) (clientId : Option String)
    (filters : ReservationQuery) : List Reservation :=
  let query := match clientId with
    | some c => { filters with clientId := some c }
    | none => filters
  store.filter (matchesQuery query)

/-- Embeds `ReservationController.findAll(req, query)`: an admin caller passes
`clientId = undefined` (sees everything the filters allow); any other
caller is forced onto their own id. -/
def findAll (store : List Reservation) (caller : Caller)
    (query : ReservationQuery) : List Reservation :=
  let clientId := if caller.role == "admin" then none else some caller.id
  getReservations store clientId query

/-- Display status of a calendar grid cell (`UiTimeSlot.status` plus the
`reserved` marker `getSlotForDateTime` produces). -/
inductive DisplayStatus where
  | available
  | reserved
  | pending
  | confirmed
  | cancelled
  | completed
  | past
deriving DecidableEq, Repr

/-- A `UiTimeSlot` as consumed by `WeeklyCalendar` (the fields the
projection reads and writes). -/
structure UiTimeSlot where
  id : String
  barberId : String
  date : Nat
  startTime : Nat
  endTime : Nat
  isAvailable : Bool
  status : DisplayStatus
  services : List ServiceSnapshot
deriving DecidableEq, Repr

/-- An entry of the `busySlots` prop of `WeeklyCalendar`. -/
structure BusySlot where
  barberId : String
  date : Nat
  startTime : Nat
deriving DecidableEq, Repr

/-- Reservation statuses carried verbatim into `UiTimeSlot.status` by the
slot mapping of the booking page. -/
def displayOf : Status → DisplayStatus
  | .pending => .pending
  | .confirmed => .confirmed
  | .cancelled => .cancelled
  | .completed => .completed

/-- The `calendarSlots` mapping of the booking page: one `UiTimeSlot` per
reservation, `barberId := barberName`, the original status preserved, and
`isAvailable` true only for cancelled reservations. -/
def calendarSlot (r : Reservation) : UiTimeSlot :=
  { id := r.id
    barberId := r.barberName
    date := r.date
    startTime := r.startTime
    endTime := r.endTime
    isAvailable := r.status == Status.cancelled
    status := displayOf r.status
    services := r.services }

/-- The fresh slot object `getSlotForDateTime` synthesizes when the grid
cell has no backing reservation (`endTime` is the "HH:59" of the cell). -/
def freshSlot (barberId : String) (date startTime : Nat)
    (isAvailable : Bool) (status : DisplayStatus) : UiTimeSlot :=
  { id := barberId ++ "-" ++ toString date ++ "-" ++ toString startTime
    barberId := barberId
    date := date
    startTime := startTime
    endTime := (startTime / 60) * 60 + 59
    isAvailable := isAvailable
    status := status
    services := [] }

/-- Embeds `WeeklyCalendar.getSlotForDateTime(barberId, date, startTime)`.
`now` is the absolute current instant in minutes since the epoch.  The
slot instant truncates the start time to its hour (`minutes: 0`), `isPast`
is a strict comparison against `now`, and `isToday` compares calendar
days.  The past check runs before the reservation lookup, which runs
before the `busySlots` check. -/
def getSlotForDateTime (now : Nat) (timeSlots : List UiTimeSlot)
    (busySlots : List BusySlot) (barberId : String) (date startTime : Nat) :
    UiTimeSlot :=
  let slotInstant := date * 1440 + (startTime / 60) * 60
  let nowDay := now / 1440
  if slotInstant < now && date ≠ nowDay then
    freshSlot barberId date startTime false .past
  else
    match timeSlots.find? (fun slot =>
        slot.barberId == barberId && slot.date == date &&
        slot.startTime == startTime) with
    | some existingSlot =>
      if existingSlot.status == DisplayStatus.confirmed ||
          existingSlot.status == DisplayStatus.pending ||
          existingSlot.status == DisplayStatus.completed then
        { existingSlot with isAvailable := false, status := .reserved }
      else if existingSlot.status == DisplayStatus.cancelled then
        { existingSlot with isAvailable := true, status := .available }
      else
        existingSlot
    | none =>
      if busySlots.any (fun b =>
          b.barberId == barberId && b.date == date &&
          b.startTime == startTime) then
        freshSlot barberId date startTime false .reserved
      else
        freshSlot barberId date startTime true .available

/-- A service as selected in the booking modal. -/
structure UiService where
  id : String
  name : String
  duration : Nat
  price : Nat
deriving DecidableEq, Repr

/-- The slot the booking modal was opened for. -/
structure BookingSlot where
  date : Nat
  startTime : Nat
  endTime : Nat
deriving DecidableEq, Repr

/-- The signed-in user as seen by the booking modal. -/
structure UiUser where
  id : String
  name : String
  phone : String
deriving DecidableEq, Repr

/-- One constructor per early-return / throw of the booking modal
function `handleConfirm`, in source order. -/
inductive BookingError where
  | missingInput
  | pastDate
  | tooManyServices
  | invalidServiceSelection
deriving DecidableEq, Repr

/-- The state `handleConfirm` reads: the modal selections, the
authenticated user, the notes, and the current date. -/
structure BookingInput where
  selectedSlot : Option BookingSlot
  selectedBarber : Option String
  selectedServices : List UiService
  user : Option UiUser
  notes : String
  today : Nat
deriving Repr

/-- Embeds `BookingModal.handleConfirm` up to the point where it hands the
payload to `reservationsService.createReservation`: `.ok payload` is the
request that would be sent; `.error` means the confirm is rejected in the
modal and the create call is never made. -/
def handleConfirm (inp : BookingInput) :
    Except BookingError CreateReservationDto :=
  match inp.selectedSlot, inp.selectedBarber, inp.user with
  | some slot, some barber, some user =>
    if inp.selectedServices.length = 0 then
      .error .missingInput
    else if slot.date < inp.today then
      .error .pastDate
    else if inp.selectedServices.length > 5 then
      .error .tooManyServices
    else
      let validServiceIds := (inp.selectedServices.map (fun s => s.id)).filter
        (fun id => id.length > 0)
      if validServiceIds.length ≠ inp.selectedServices.length then
        .error .invalidServiceSelection
      else
        let totalDurationMinutes := inp.selectedServices.foldl
          (fun sum s => sum + s.duration) 0
        .ok
          { clientName := user.name
            clientPhone := some user.phone
            serviceId := none
            serviceIds := some validServiceIds
            barberName := barber
            date := slot.date
            startTime := slot.startTime
            endTime := (slot.startTime + totalDurationMinutes) % 1440
            notes := some inp.notes }
  | _, _, _ => .error .missingInput

/-- The limit `SECURITY_CONFIG.VALIDATION.MAX_SERVICES_PER_BOOKING`. -/
def MAX_SERVICES_PER_BOOKING : Nat := 5

/-- An empty `GET /reservations` query string (no filters). -/
def emptyQuery : ReservationQuery := {}

/-! ### Concrete instances used by counterexamples and witnesses -/

/-- A 120-minute catalog service. -/
def svcColor : CatalogService :=
  { id := "s1", name := "Color Treatment", duration := 120, price := 50 }

/-- A 45-minute catalog service (spec scenario 1). -/
def svcCut : CatalogService :=
  { id := "s2", name := "Haircut", duration := 45, price := 35 }

/-- A catalog holding both sample services. -/
def sampleCatalog : List CatalogService := [svcColor, svcCut]

/-- An environment with an empty reservation store; "today" is day 100. -/
def emptyStoreEnv : Env :=
  { today := 100, catalog := sampleCatalog, store := [], newId := "r1" }

/-- Scenario-1 style request: John, today, 10:00 (600 min), one
45-minute service. -/
def dtoHaircut : CreateReservationDto :=
  { clientName := "Ann", clientPhone := some "12345678", serviceId := none,
    serviceIds := some ["s2"], barberName := "John", date := 100,
    startTime := 600, endTime := 0, notes := none }

/-- The reservation `createReservation emptyStoreEnv dtoHaircut "u1"`
persists. -/
def resHaircut : Reservation :=
  { id := "r1", clientId := "u1", clientName := "Ann",
    clientPhone := some "12345678", serviceIds := ["s2"],
    services := [{ serviceId := "s2", serviceName := "Haircut",
                   duration := 45, price := 35 }],
    barberName := "John", date := 100, startTime := 600, endTime := 645,
    status := .pending, notes := none, totalDuration := 45, totalPrice := 35 }

/-- A request starting at 23:00 for the 120-minute service: its end
crosses midnight. -/
def dtoLateNight : CreateReservationDto :=
  { clientName := "Ann", clientPhone := none, serviceId := some "s1",
    serviceIds := none, barberName := "John", date := 100,
    startTime := 1380, endTime := 0, notes := none }

/-- The reservation the late-night request persists: its stored
`endTime` has wrapped to 01:00 (60 min), before its `startTime`. -/
def resLateNight : Reservation :=
  { id := "r1", clientId := "u1", clientName := "Ann", clientPhone := none,
    serviceIds := ["s1"],
    services := [{ serviceId := "s1", serviceName := "Color Treatment",
                   duration := 120, price := 50 }],
    barberName := "John", date := 100, startTime := 1380, endTime := 60,
    status := .pending, notes := none, totalDuration := 120, totalPrice := 50 }

/-- A past-date request naming a barber outside the fixed set. -/
def dtoPastBadBarber : CreateReservationDto :=
  { clientName := "Ann", clientPhone := none, serviceId := some "s2",
    serviceIds := none, barberName := "Bob", date := 99,
    startTime := 600, endTime := 0, notes := none }

/-- An environment whose store holds the pending 10:00–10:45 John
reservation. -/
def bookedEnv : Env :=
  { today := 100, catalog := sampleCatalog, store := [resHaircut],
    newId := "r2" }

/-- Overlapping request: John, same date, 10:30 (630 min). -/
def dtoOverlap : CreateReservationDto :=
  { clientName := "Bea", clientPhone := none, serviceId := some "s2",
    serviceIds := none, barberName := "John", date := 100,
    startTime := 630, endTime := 0, notes := none }

/-- A completed reservation, target of a terminal-state update attempt. -/
def resCompleted : Reservation :=
  { resHaircut with id := "rC", status := .completed }

/-- Update DTO that only requests `status: pending`. -/
def dtoStatusPending : UpdateReservationDto := { status := some .pending }

/-- A confirmed reservation on a future day (day 200), for the calendar
projection. -/
def resFutureConfirmed : Reservation :=
  { resHaircut with id := "rF", date := 200, status := .confirmed }

/-- Two-client store: one reservation owned by "u1", one by "u2". -/
def twoClientStore : List Reservation :=
  [resHaircut, { resHaircut with id := "r9", clientId := "u2" }]

/-- A non-admin caller with identity "u1". -/
def clientCaller : Caller := { id := "u1", role := "user" }

/-- An admin caller. -/
def adminCaller : Caller := { id := "a1", role := "admin" }

/-- Booking-modal input selecting six services. -/
def sixServiceInput : BookingInput :=
  { selectedSlot := some { date := 100, startTime := 600, endTime := 660 }
    selectedBarber := some "John"
    selectedServices :=
      [{ id := "s2", name := "Haircut", duration := 45, price := 35 },
       { id := "s3", name := "Beard Trim", duration := 15, price := 10 },
       { id := "s4", name := "Shave", duration := 20, price := 15 },
       { id := "s5", name := "Wash", duration := 10, price := 5 },
       { id := "s6", name := "Styling", duration := 25, price := 20 },
       { id := "s7", name := "Massage", duration := 30, price := 25 }]
    user := some { id := "u1", name := "Ann", phone := "12345678" }
    notes := ""
    today := 100 }

/-- Duplicate-service request: the same id twice in `serviceIds`. -/
def dtoDupService : CreateReservationDto :=
  { clientName := "Ann", clientPhone := none, serviceId := none,
    serviceIds := some ["s2", "s2"], barberName := "John", date := 100,
    startTime := 600, endTime := 0, notes := none }

/-! ### Helper lemmas -/

/-- The Mongo conflict query matches a stored reservation exactly when it
is an active (pending/confirmed) reservation of the same barber and date
whose interval overlaps the requested one in the sense of spec 4.1. -/
theorem conflictsWith_eq_true_iff (barberName : String)
    (date startTime endTime : Nat) (r : Reservation) :
    conflictsWith barberName date startTime endTime r = true ↔
      r.barberName = barberName ∧ r.date = date ∧
      (r.status = .pending ∨ r.status = .confirmed) ∧
      intervalsOverlap r.startTime r.endTime startTime endTime = true := by
  simp only [conflictsWith, intervalsOverlap, Bool.and_eq_true,
    Bool.or_eq_true, beq_iff_eq, decide_eq_true_eq, GT.gt]
  tauto

/-- The function `createReservation` never reads the `endTime` field
of the DTO. -/
theorem createReservation_endTime_agnostic (env : Env)
    (dto : CreateReservationDto) (userId : String) (e : Nat) :
    createReservation env { dto with endTime := e } userId =
      createReservation env dto userId := rfl

/-- Reducing `createReservation` to its conflict check once the earlier
validations are known to pass. -/
theorem createReservation_conflict_stage (env : Env)
    (dto : CreateReservationDto) (userId : String) (ids : List String)
    (hb : BARBERS.contains dto.barberName = true)
    (hd : ¬ dto.date < env.today)
    (hids : resolveServiceIds dto = some ids)
    (hlen : (findServices env.catalog ids).length = ids.length)
    (hdur : totalDurationOf (findServices env.catalog ids) ≠ 0) :
    createReservation env dto userId =
      if env.store.any (conflictsWith dto.barberName dto.date dto.startTime
          (computeEndTime dto.startTime
            (totalDurationOf (findServices env.catalog ids)))) then
        .error .slotConflict
      else
        .ok (persistedReservation env dto userId ids) := by
  unfold createReservation
  rw [hids, hb]
  simp only [Bool.not_true, Bool.false_eq_true, if_false, if_neg hd]
  rw [if_neg (fun h => h hlen), if_neg hdur]

/-- The projected statuses carried over from reservations never include
`past`. -/
theorem displayOf_ne_past (s : Status) : displayOf s ≠ .past := by
  cases s <;> simp [displayOf]

/-- Any instant lies before the first instant of the next day. -/
theorem lt_next_day (now : Nat) : now < (now / 1440 + 1) * 1440 := by
  have h1 := Nat.div_add_mod now 1440
  have h2 : now % 1440 < 1440 := Nat.mod_lt _ (by norm_num)
  omega

/-! ### Claim theorems -/

/-- C1: a `createReservation` request that passes the validations ahead
of the conflict check is rejected with slot-conflict if and only if some
existing reservation with the same `barberName` and `date` and status in
pending/confirmed has an interval overlapping the requested
`[startTime, endTime)` under the half-open test of spec 4.1 — so
back-to-back bookings are admitted, and cancelled or completed
reservations never cause the rejection. -/
theorem createReservation_slotConflict_iff (env : Env)
    (dto : CreateReservationDto) (userId : String) (ids : List String)
    (hb : BARBERS.contains dto.barberName = true)
    (hd : ¬ dto.date < env.today)
    (hids : resolveServiceIds dto = some ids)
    (hlen : (findServices env.catalog ids).length = ids.length)
    (hdur : totalDurationOf (findServices env.catalog ids) ≠ 0) :
    createReservation env dto userId = .error .slotConflict ↔
      ∃ r ∈ env.store,
        r.barberName = dto.barberName ∧ r.date = dto.date ∧
        (r.status = .pending ∨ r.status = .confirmed) ∧
        intervalsOverlap r.startTime r.endTime dto.startTime
          (computeEndTime dto.startTime
            (totalDurationOf (findServices env.catalog ids))) = true := by
  rw [createReservation_conflict_stage env dto userId ids hb hd hids hlen hdur]
  by_cases hany : env.store.any (conflictsWith dto.barberName dto.date
      dto.startTime (computeEndTime dto.startTime
        (totalDurationOf (findServices env.catalog ids)))) = true
  · rw [if_pos hany]
    simp only [true_iff, List.any_eq_true] at hany ⊢
    obtain ⟨r, hr, hp⟩ := hany
    exact ⟨r, hr, (conflictsWith_eq_true_iff _ _ _ _ r).mp hp⟩
  · rw [if_neg hany]
    simp only [List.any_eq_true] at hany
    constructor
    · intro h
      exact absurd h (by simp)
    · rintro ⟨r, hr, hprops⟩
      exact absurd ⟨r, hr, (conflictsWith_eq_true_iff _ _ _ _ r).mpr hprops⟩ hany

/-- Witness for C1 at spec scenario 2: the 10:30 request against the
pending 10:00–10:45 reservation satisfies every hypothesis, and the
conflict is observed. -/
theorem createReservation_slotConflict_iff_witness :
    (createReservation bookedEnv dtoOverlap "u2" = .error .slotConflict ↔
      ∃ r ∈ bookedEnv.store,
        r.barberName = dtoOverlap.barberName ∧ r.date = dtoOverlap.date ∧
        (r.status = .pending ∨ r.status = .confirmed) ∧
        intervalsOverlap r.startTime r.endTime dtoOverlap.startTime
          (computeEndTime dtoOverlap.startTime
            (totalDurationOf
              (findServices bookedEnv.catalog ["s2"]))) = true) :=
  createReservation_slotConflict_iff bookedEnv dtoOverlap "u2" ["s2"]
    (by decide) (by decide) (by decide) (by decide) (by decide)

/-- C2 (code bug in the source): a request whose start time plus total
duration crosses midnight is not rejected — the stored `endTime` silently
wraps, so the persisted reservation violates `startTime < endTime`.
Concretely, a 23:00 request for a 120-minute service is persisted with
`endTime` 01:00. -/
theorem createReservation_wraps_past_midnight :
    createReservation emptyStoreEnv dtoLateNight "u1" = .ok resLateNight ∧
    resLateNight.endTime < resLateNight.startTime := by
  constructor
  · rfl
  · decide

/-- C3: every successfully created reservation stores
`totalDuration = Σ services[].duration`, `totalPrice = Σ services[].price`
and `endTime = computeEndTime(startTime, totalDuration)`, and the
caller-supplied `endTime` of the creation payload is ignored (changing it
never changes the outcome). -/
theorem createReservation_derived_fields (env : Env)
    (dto : CreateReservationDto) (userId : String) (r : Reservation)
    (h : createReservation env dto userId = .ok r) :
    r.totalDuration = r.services.foldl (fun sum s => sum + s.duration) 0 ∧
    r.totalPrice = r.services.foldl (fun sum s => sum + s.price) 0 ∧
    r.startTime = dto.startTime ∧
    r.endTime = computeEndTime r.startTime r.totalDuration ∧
    ∀ e, createReservation env { dto with endTime := e } userId = .ok r := by
  have hAgnostic : ∀ e,
      createReservation env { dto with endTime := e } userId = .ok r :=
    fun e => (createReservation_endTime_agnostic env dto userId e).trans h
  unfold createReservation at h
  split at h
  · exact absurd h (by simp)
  · split at h
    · exact absurd h (by simp)
    · split at h
      · exact absurd h (by simp)
      · rename_i ids _
        dsimp only at h
        split at h
        · exact absurd h (by simp)
        · split at h
          · exact absurd h (by simp)
          · split at h
            · exact absurd h (by simp)
            · rw [Except.ok.injEq] at h
              subst h
              refine ⟨?_, ?_, rfl, rfl, hAgnostic⟩
              · simp [persistedReservation, totalDurationOf, List.foldl_map]
              · simp [persistedReservation, totalPriceOf, List.foldl_map]

/-- Witness for C3 at spec scenario 1: one 45-minute, 35-priced service
at 10:00 yields a reservation ending 10:45 with consistent totals. -/
theorem createReservation_derived_fields_witness :
    resHaircut.totalDuration =
      resHaircut.services.foldl (fun sum s => sum + s.duration) 0 ∧
    resHaircut.totalPrice =
      resHaircut.services.foldl (fun sum s => sum + s.price) 0 ∧
    resHaircut.startTime = dtoHaircut.startTime ∧
    resHaircut.endTime =
      computeEndTime resHaircut.startTime resHaircut.totalDuration ∧
    ∀ e, createReservation emptyStoreEnv { dtoHaircut with endTime := e }
      "u1" = .ok resHaircut :=
  createReservation_derived_fields emptyStoreEnv dtoHaircut "u1" resHaircut rfl

/-- C4 counterexample: the claim "any transition out of completed or
cancelled fails with invalid-transition and leaves the state unchanged"
is false — updating the completed reservation `rC` to `pending` succeeds
and overwrites the status. -/
theorem updateReservation_terminal_update_succeeds :
    updateReservation [resCompleted] "rC" dtoStatusPending =
      .ok { resCompleted with status := .pending } ∧
    Status.pending ≠ resCompleted.status := by
  constructor
  · rfl
  · decide

/-- C4 amended: the update path performs no status-transition validation
at all — whenever the target id exists, `updateReservation` succeeds and
stores exactly the requested status (terminal states included); the only
failure is not-found for an unknown id. -/
theorem updateReservation_applies_any_status (store : List Reservation)
    (id : String) (dto : UpdateReservationDto) (r : Reservation) (s : Status)
    (hfind : store.find? (fun x => x.id == id) = some r)
    (hs : dto.status = some s) :
    updateReservation store id dto = .ok (applyUpdate dto r) ∧
    (applyUpdate dto r).status = s := by
  refine ⟨?_, ?_⟩
  · simp [updateReservation, hfind]
  · simp [applyUpdate, hs]

/-- Witness for C4 amended: the completed reservation `rC` is moved to
`pending`. -/
theorem updateReservation_applies_any_status_witness :
    updateReservation [resCompleted] "rC" dtoStatusPending =
      .ok (applyUpdate dtoStatusPending resCompleted) ∧
    (applyUpdate dtoStatusPending resCompleted).status = .pending :=
  updateReservation_applies_any_status [resCompleted] "rC" dtoStatusPending
    resCompleted .pending (by decide) (by decide)

/-- C5 counterexample: a 09:00 slot on today (day 100) with "now" at
15:00 starts strictly before now and is occupied by no reservation, yet
the projection displays it as available, not past. -/
theorem todays_elapsed_slot_not_past :
    100 * 1440 + 540 < 100 * 1440 + 900 ∧
    (getSlotForDateTime (100 * 1440 + 900) [] [] "John" 100 540).status =
      .available ∧
    DisplayStatus.available ≠ DisplayStatus.past := by
  refine ⟨by norm_num, ?_, by decide⟩
  rfl

/-- C5 amended: over the slots the booking page derives from the
reservation list, a cell is projected `past` exactly when its calendar
date lies strictly before the current date — a slot on today is never shown
as past however far its clock time has elapsed, and a cell on a past day
is shown as past even when a reservation occupies it. -/
theorem getSlotForDateTime_past_iff_past_day (now : Nat)
    (rs : List Reservation) (busySlots : List BusySlot) (barberId : String)
    (date startTime : Nat) (hst : startTime < 1440) :
    (getSlotForDateTime now (rs.map calendarSlot) busySlots barberId date
        startTime).status = .past ↔ date < now / 1440 := by
  unfold getSlotForDateTime
  by_cases hlt : date < now / 1440
  · have hhour : (startTime / 60) * 60 ≤ startTime := Nat.div_mul_le_self _ _
    have hinstant : date * 1440 + (startTime / 60) * 60 < now := by
      have h1 : date * 1440 + (startTime / 60) * 60 < (date + 1) * 1440 := by
        have : (startTime / 60) * 60 < 1440 :=
          Nat.lt_of_le_of_lt hhour hst
        omega
      have h2 : (date + 1) * 1440 ≤ (now / 1440) * 1440 :=
        Nat.mul_le_mul_right _ hlt
      have h3 : (now / 1440) * 1440 ≤ now := Nat.div_mul_le_self _ _
      omega
    rw [if_pos]
    · simp [freshSlot, hlt]
    · simp only [Bool.and_eq_true, decide_eq_true_eq, hinstant, true_and]
      omega
  · rw [if_neg]
    · constructor
      · intro hpast
        exfalso
        revert hpast
        cases hfind : (rs.map calendarSlot).find? (fun slot =>
            slot.barberId == barberId && slot.date == date &&
            slot.startTime == startTime) with
        | none =>
          simp only [hfind]
          split <;> simp [freshSlot]
        | some s =>
          have hs : s ∈ rs.map calendarSlot := List.mem_of_find?_eq_some hfind
          obtain ⟨r, _, hsr⟩ := List.mem_map.mp hs
          simp only [hfind]
          split
          · simp
          · split
            · simp
            · intro hpast
              refine displayOf_ne_past r.status ?_
              rw [← hsr] at hpast
              simpa [calendarSlot] using hpast
      · intro h
        exact absurd h hlt
    · intro hcond
      simp only [Bool.and_eq_true, decide_eq_true_eq] at hcond
      obtain ⟨hinst, hne⟩ := hcond
      have hgt : now / 1440 < date := by
        rcases Nat.lt_or_ge (now / 1440) date with h | h
        · exact h
        · rcases Nat.lt_or_ge date (now / 1440) with h2 | h2
          · exact absurd h2 hlt
          · omega
      have : now < date * 1440 := by
        have := lt_next_day now
        have h4 : (now / 1440 + 1) * 1440 ≤ date * 1440 :=
          Nat.mul_le_mul_right _ hgt
        omega
      omega

/-- Witness for C5 amended: the equivalence instantiated for a 09:00
slot of yesterday (day 99) with "now" at 15:00 of day 100. -/
theorem getSlotForDateTime_past_iff_past_day_witness :
    540 < 1440 ∧
    ((getSlotForDateTime (100 * 1440 + 900)
        (List.map calendarSlot []) [] "John" 99 540).status = .past ↔
      99 < (100 * 1440 + 900) / 1440) :=
  ⟨by norm_num, getSlotForDateTime_past_iff_past_day (100 * 1440 + 900) []
    [] "John" 99 540 (by norm_num)⟩

/-- C6 counterexample: the cell of a confirmed reservation on a future
day is displayed with the collapsed marker `reserved`, not with the
status `confirmed` of the reservation itself. -/
theorem confirmed_slot_displays_reserved :
    (getSlotForDateTime (100 * 1440)
        ([resFutureConfirmed].map calendarSlot) [] "John" 200 600).status =
      .reserved ∧
    DisplayStatus.reserved ≠ DisplayStatus.confirmed := by
  constructor
  · rfl
  · decide

/-- C6 amended: for a cell whose date is not on a past day, matched
exactly by a slot record on `(barberId, date, startTime)`: if the
status of the record is confirmed, pending or completed the cell is projected
with the collapsed status `reserved` (not the status of the reservation)
and is unavailable; if it is cancelled the cell is projected `available`
and bookable again. -/
theorem getSlotForDateTime_matched_reservation (now : Nat)
    (ts : List UiTimeSlot) (busySlots : List BusySlot) (barberId : String)
    (date startTime : Nat) (s : UiTimeSlot)
    (hday : now / 1440 ≤ date)
    (hfind : ts.find? (fun slot => slot.barberId == barberId &&
        slot.date == date && slot.startTime == startTime) = some s) :
    ((s.status = .confirmed ∨ s.status = .pending ∨ s.status = .completed) →
      getSlotForDateTime now ts busySlots barberId date startTime =
        { s with isAvailable := false, status := .reserved }) ∧
    (s.status = .cancelled →
      getSlotForDateTime now ts busySlots barberId date startTime =
        { s with isAvailable := true, status := .available }) := by
  have hnopast : ¬((decide (date * 1440 + (startTime / 60) * 60 < now) &&
      decide (date ≠ now / 1440)) = true) := by
    simp only [Bool.and_eq_true, decide_eq_true_eq]
    rintro ⟨hinst, hne⟩
    have hgt : now / 1440 < date := lt_of_le_of_ne hday (Ne.symm hne)
    have h1 := lt_next_day now
    have h2 : (now / 1440 + 1) * 1440 ≤ date * 1440 :=
      Nat.mul_le_mul_right _ hgt
    omega
  unfold getSlotForDateTime
  rw [if_neg hnopast, hfind]
  constructor
  · intro hstat
    have hb2 : (s.status == DisplayStatus.confirmed ||
        s.status == DisplayStatus.pending ||
        s.status == DisplayStatus.completed) = true := by
      rcases hstat with h | h | h <;> simp [h]
    simp [hb2]
  · intro hstat
    have hb2 : (s.status == DisplayStatus.confirmed ||
        s.status == DisplayStatus.pending ||
        s.status == DisplayStatus.completed) = false := by simp [hstat]
    have hb3 : (s.status == DisplayStatus.cancelled) = true := by
      simp [hstat]
    simp [hb2, hb3]

/-- Witness for C6 amended: instantiated at the future confirmed
reservation and at its cancelled variant. -/
theorem getSlotForDateTime_matched_reservation_witness :
    ((calendarSlot resFutureConfirmed).status = .confirmed ∨
      (calendarSlot resFutureConfirmed).status = .pending ∨
      (calendarSlot resFutureConfirmed).status = .completed →
      getSlotForDateTime (100 * 1440) ([resFutureConfirmed].map calendarSlot)
          [] "John" 200 600 =
        { calendarSlot resFutureConfirmed with
            isAvailable := false, status := .reserved }) ∧
    ((calendarSlot resFutureConfirmed).status = .cancelled →
      getSlotForDateTime (100 * 1440) ([resFutureConfirmed].map calendarSlot)
          [] "John" 200 600 =
        { calendarSlot resFutureConfirmed with
            isAvailable := true, status := .available }) :=
  getSlotForDateTime_matched_reservation (100 * 1440)
    ([resFutureConfirmed].map calendarSlot) [] "John" 200 600
    (calendarSlot resFutureConfirmed) (by norm_num) (by rfl)

/-- C7: a non-admin call to `GET /reservations` only ever returns the
reservations owned by the caller, whatever filters (including a foreign
`clientId`) the request carries; an admin caller with no filters receives
the whole store. -/
theorem findAll_scopes_non_admin (store : List Reservation) (caller : Caller)
    (q : ReservationQuery) :
    (caller.role ≠ "admin" →
      ∀ r ∈ findAll store caller q, r.clientId = caller.id) ∧
    (caller.role = "admin" → findAll store caller emptyQuery = store) := by
  constructor
  · intro hrole r hr
    unfold findAll at hr
    rw [if_neg (by simpa using hrole)] at hr
    unfold getReservations at hr
    dsimp only at hr
    have hmatch := List.of_mem_filter hr
    simp only [matchesQuery, Bool.and_eq_true, beq_iff_eq] at hmatch
    exact hmatch.1.1.1
  · intro hrole
    unfold findAll
    rw [if_pos (by simpa using hrole)]
    unfold getReservations
    dsimp only
    apply List.filter_eq_self.mpr
    intro r _
    simp [matchesQuery, emptyQuery]

/-- Witness for C7: a "user"-role caller over a two-client store only
sees their own reservation, and the admin sees the whole store. -/
theorem findAll_scopes_non_admin_witness :
    (clientCaller.role ≠ "admin" →
      ∀ r ∈ findAll twoClientStore clientCaller
        { clientId := some "u2" }, r.clientId = clientCaller.id) ∧
    (adminCaller.role = "admin" →
      findAll twoClientStore adminCaller emptyQuery = twoClientStore) :=
  ⟨(findAll_scopes_non_admin twoClientStore clientCaller
      { clientId := some "u2" }).1,
   (findAll_scopes_non_admin twoClientStore adminCaller emptyQuery).2⟩

/-- C8 counterexample: the claim "a past-date request always rejects
with past-date regardless of the other fields" is false — a past-date
request naming an unknown barber is rejected with invalid-barber, since
the barber check precedes the date check. -/
theorem pastDate_request_rejected_as_invalidBarber :
    dtoPastBadBarber.date < emptyStoreEnv.today ∧
    createReservation emptyStoreEnv dtoPastBadBarber "u1" =
      .error .invalidBarber ∧
    CreateError.invalidBarber ≠ CreateError.pastDate := by
  refine ⟨by decide, ?_, by decide⟩
  rfl

/-- C8 amended: a request whose date is strictly before today is always
rejected (never persisted); the rejection is past-date whenever the
barber name is valid, while an invalid barber name is rejected first as
invalid-barber. -/
theorem createReservation_past_date_always_rejected (env : Env)
    (dto : CreateReservationDto) (userId : String)
    (h : dto.date < env.today) :
    (∃ e, createReservation env dto userId = .error e) ∧
    (BARBERS.contains dto.barberName = true →
      createReservation env dto userId = .error .pastDate) := by
  have hres : BARBERS.contains dto.barberName = true →
      createReservation env dto userId = .error .pastDate := by
    intro hb
    unfold createReservation
    rw [hb]
    simp [h]
  by_cases hb : BARBERS.contains dto.barberName = true
  · exact ⟨⟨.pastDate, hres hb⟩, hres⟩
  · have hbf : BARBERS.contains dto.barberName = false := by simpa using hb
    refine ⟨⟨.invalidBarber, ?_⟩, hres⟩
    unfold createReservation
    rw [hbf]
    simp

/-- Witness for C8 amended: a valid-barber request dated yesterday is
rejected with past-date. -/
theorem createReservation_past_date_always_rejected_witness :
    (∃ e, createReservation emptyStoreEnv { dtoHaircut with date := 99 }
      "u1" = .error e) ∧
    (BARBERS.contains ({ dtoHaircut with date := 99 } :
        CreateReservationDto).barberName = true →
      createReservation emptyStoreEnv { dtoHaircut with date := 99 } "u1" =
        .error .pastDate) :=
  createReservation_past_date_always_rejected emptyStoreEnv
    { dtoHaircut with date := 99 } "u1" (by decide)

/-- C9: the booking modal rejects a confirm that selects more than
5 services (the `MAX_SERVICES_PER_BOOKING` limit) before the
`createReservation` request is ever issued: `handleConfirm` returns an
error and never produces a creation payload. -/
theorem handleConfirm_rejects_too_many_services (inp : BookingInput)
    (h : inp.selectedServices.length > MAX_SERVICES_PER_BOOKING) :
    ∃ e, handleConfirm inp = .error e := by
  unfold handleConfirm
  rcases hslot : inp.selectedSlot with _ | slot
  · exact ⟨.missingInput, rfl⟩
  · rcases hbarber : inp.selectedBarber with _ | barber
    · exact ⟨.missingInput, rfl⟩
    · rcases huser : inp.user with _ | user
      · exact ⟨.missingInput, rfl⟩
      · have h0 : ¬ inp.selectedServices.length = 0 := by
          have : 5 < inp.selectedServices.length := h
          omega
        dsimp only
        rw [if_neg h0]
        by_cases hp : slot.date < inp.today
        · rw [if_pos hp]
          exact ⟨.pastDate, rfl⟩
        · rw [if_neg hp,
            if_pos (show inp.selectedServices.length > 5 from h)]
          exact ⟨.tooManyServices, rfl⟩

/-- Witness for C9: the six-service selection is rejected. -/
theorem handleConfirm_rejects_too_many_services_witness :
    ∃ e, handleConfirm sixServiceInput = .error e :=
  handleConfirm_rejects_too_many_services sixServiceInput (by decide)

/-- C10: a request whose resolved `serviceIds` list repeats a service id
is rejected as invalid-service — the catalog lookup returns each distinct
document once, so it yields fewer services than requested ids — hence no
reservation can snapshot the same service twice. -/
theorem createReservation_rejects_duplicate_service_ids (env : Env)
    (dto : CreateReservationDto) (userId : String) (ids : List String)
    (hcat : (env.catalog.map (fun s => s.id)).Nodup)
    (hb : BARBERS.contains dto.barberName = true)
    (hd : ¬ dto.date < env.today)
    (hids : resolveServiceIds dto = some ids)
    (hdup : ¬ ids.Nodup) :
    createReservation env dto userId = .error .invalidService := by
  have hlt : (findServices env.catalog ids).length < ids.length := by
    have hnodup : ((findServices env.catalog ids).map (fun s => s.id)).Nodup := by
      have hsub : ((env.catalog.filter (fun s => ids.contains s.id)).map
          (fun s => s.id)).Sublist (env.catalog.map (fun s => s.id)) :=
        (List.filter_sublist _).map _
      exact hcat.sublist hsub
    have hsubset : ((findServices env.catalog ids).map (fun s => s.id)) ⊆
        ids.dedup := by
      intro x hx
      obtain ⟨s, hs, hsx⟩ := List.mem_map.mp hx
      have hs2 : s ∈ env.catalog.filter (fun x => ids.contains x.id) := hs
      have hmem := List.of_mem_filter hs2
      rw [List.mem_dedup, ← hsx]
      simpa using hmem
    have h1 : ((findServices env.catalog ids).map (fun s => s.id)).length ≤
        ids.dedup.length :=
      (List.subperm_of_subset hnodup hsubset).length_le
    have h2 : ids.dedup.length < ids.length := by
      have hle : ids.dedup.length ≤ ids.length :=
        (List.dedup_sublist ids).length_le
      rcases Nat.lt_or_ge ids.dedup.length ids.length with hlt2 | hge
      · exact hlt2
      · exfalso
        have heq : ids.dedup = ids :=
          (List.dedup_sublist ids).eq_of_length (by omega)
        exact hdup (heq ▸ List.nodup_dedup ids)
    have hmaplen : ((findServices env.catalog ids).map (fun s => s.id)).length =
        (findServices env.catalog ids).length := List.length_map _ _
    omega
  unfold createReservation
  rw [hids, hb]
  simp only [Bool.not_true, Bool.false_eq_true, if_false, if_neg hd]
  rw [if_pos (by omega)]

/-- Witness for C10: the request listing "s2" twice against the sample
catalog is rejected as invalid-service. -/
theorem createReservation_rejects_duplicate_service_ids_witness :
    createReservation emptyStoreEnv dtoDupService "u1" =
      .error .invalidService :=
  createReservation_rejects_duplicate_service_ids emptyStoreEnv
    dtoDupService "u1" ["s2", "s2"] (by decide) (by decide) (by decide)
    (by decide) (by decide)

end RazorSpark
